import Mathlib

/-!
Verification of the admin-dashboard client core against its specification.

The development shallowly embeds the TypeScript source:
* the time-window resolver `makeTimeParams` (src/src/pages/Dashboard.tsx:263,
  src/src/components/ActivityExplorer.tsx:49 — the two copies are textually
  identical);
* the session/auth lifecycle: the `AuthProvider` in
  src/src/components/Sidebar.tsx (in-memory token/user state, the
  `localStorage` keys `token` and `user`, `login`, `logout`, the `useState`
  initializers that restore a persisted session) together with the
  interceptor-equipped API client in src/unnamed/part_001 (`setAuthToken`,
  the `admin_token` storage key, and the 401/403 response interceptor);
* the two route guards (src/src/components/ProtectedRoute.tsx and the
  role-checking variant in src/unnamed/part_000);
* the response-envelope normalizations (src/unnamed/part_003 line 22 and
  src/src/components/ActivityExplorer.tsx lines 164-170) over a small model
  of JavaScript values;
* the overview dashboard user counters (src/unnamed/part_003).

JavaScript strings, numbers and `null`/`undefined` are modelled with
`String`, `Int`, `Option`; JavaScript truthiness is made explicit.
`JSON.stringify`/`JSON.parse` on the stored user record is exact for this
record type (plain strings and numbers), so persisted values are modelled at
the typed level rather than as serialized text.
-/

namespace AdminDashboard

/-! ## JavaScript primitives -/

/-- Truthiness of a JS `string | null | undefined` value: `null`, `undefined`
and the empty string are falsy; every other string is truthy. -/
def strTruthy : Option String → Bool
  | none => false
  | some s => s ≠ ""

/-! ## Time-window resolver

`WindowKey` is the TS union
`'all' | '7d' | '30d' | '90d' | 'this_week' | 'this_month' | 'custom'`
(src/src/pages/Dashboard.tsx:62, src/src/components/ActivityExplorer.tsx:16).
A TS string-literal union member is itself a string; `windowKeyStr` maps each
constructor to that literal. -/

inductive WindowKey where
  | all | d7 | d30 | d90 | this_week | this_month | custom
deriving Repr, DecidableEq

def windowKeyStr : WindowKey → String
  | .all => "all"
  | .d7 => "7d"
  | .d30 => "30d"
  | .d90 => "90d"
  | .this_week => "this_week"
  | .this_month => "this_month"
  | .custom => "custom"

/-- `if (x) params.k = x` for an optional string parameter: the entry is added
only when the value is truthy (present and non-empty). -/
def truthyEntry (k : String) (v : Option String) : List (String × String) :=
  match v with
  | none => []
  | some s => if s = "" then [] else [(k, s)]

/-- src/src/pages/Dashboard.tsx:263 / src/src/components/ActivityExplorer.tsx:49:

```ts
function makeTimeParams(windowStr: WindowKey, from?: string, to?: string) {
  const params: any = {};
  if (windowStr === 'custom') {
    if (from) params.from = from;
    if (to) params.to = to;
  } else {
    params.window = windowStr; // includes 'all'
  }
  return params;
}
```

The parameter object is modelled as an insertion-ordered key/value list. -/
def makeTimeParams (windowStr : WindowKey) (fromD toD : Option String) :
    List (String × String) :=
  if windowStr = .custom then
    truthyEntry "from" fromD ++ truthyEntry "to" toD
  else
    [("window", windowKeyStr windowStr)]

/-! ## Theorems: time-window resolver -/

/-- **C3.** For every `WindowKey` other than `custom`, `makeTimeParams`
returns a parameter map containing exactly one key, `window`, whose value is
the enumeration member's own string verbatim, and no `from` or `to` keys. -/
theorem makeTimeParams_named_window (w : WindowKey) (f t : Option String)
    (hw : w ≠ .custom) :
    makeTimeParams w f t = [("window", windowKeyStr w)] ∧
    "from" ∉ (makeTimeParams w f t).map Prod.fst ∧
    "to" ∉ (makeTimeParams w f t).map Prod.fst := by
  have h : makeTimeParams w f t = [("window", windowKeyStr w)] := by
    simp [makeTimeParams, hw]
  refine ⟨h, ?_, ?_⟩ <;> simp [h]

/-- Witness for C3: at `all` (with stray bounds supplied) the resolver emits
exactly `window=all`. -/
theorem makeTimeParams_named_window_witness :
    makeTimeParams .all (some "2025-01-01") (some "2025-02-01")
      = [("window", "all")] :=
  (makeTimeParams_named_window .all (some "2025-01-01") (some "2025-02-01")
    (by decide)).1

/-- **C4.** For the `custom` window, the resolver emits exactly the keys among
`from`/`to` whose bound is truthy (present and non-empty), never a `window`
key; with only `from` set it emits only `from`; with both bounds empty or
absent it returns the empty parameter map (and, being a total function, it
raises no error). -/
theorem makeTimeParams_custom (f t : Option String) :
    "window" ∉ (makeTimeParams .custom f t).map Prod.fst ∧
    (∀ fs, f = some fs → fs ≠ "" → strTruthy t = false →
      makeTimeParams .custom f t = [("from", fs)]) ∧
    (∀ ts, t = some ts → ts ≠ "" → strTruthy f = false →
      makeTimeParams .custom f t = [("to", ts)]) ∧
    (∀ fs ts, f = some fs → fs ≠ "" → t = some ts → ts ≠ "" →
      makeTimeParams .custom f t = [("from", fs), ("to", ts)]) ∧
    (strTruthy f = false → strTruthy t = false →
      makeTimeParams .custom f t = []) := by
  refine ⟨?_, ?_, ?_, ?_, ?_⟩
  · cases f with
    | none => cases t with
      | none => simp [makeTimeParams, truthyEntry]
      | some ts =>
          by_cases hts : ts = "" <;>
            simp [makeTimeParams, truthyEntry, hts]
    | some fs => cases t with
      | none =>
          by_cases hfs : fs = "" <;>
            simp [makeTimeParams, truthyEntry, hfs]
      | some ts =>
          by_cases hfs : fs = "" <;> by_cases hts : ts = "" <;>
            simp [makeTimeParams, truthyEntry, hfs, hts]
  · intro fs hf hfs ht
    cases t with
    | none => simp [makeTimeParams, truthyEntry, hf, hfs]
    | some ts =>
        have hts : ts = "" := by
          by_contra hne
          simp [strTruthy, hne] at ht
        simp [makeTimeParams, truthyEntry, hf, hfs, hts]
  · intro ts ht hts hf
    cases f with
    | none => simp [makeTimeParams, truthyEntry, ht, hts]
    | some fs =>
        have hfs : fs = "" := by
          by_contra hne
          simp [strTruthy, hne] at hf
        simp [makeTimeParams, truthyEntry, ht, hts, hfs]
  · intro fs ts hf hfs ht hts
    simp [makeTimeParams, truthyEntry, hf, ht, hfs, hts]
  · intro hf ht
    cases f with
    | none => cases t with
      | none => simp [makeTimeParams, truthyEntry]
      | some ts =>
          have hts : ts = "" := by
            by_contra hne
            simp [strTruthy, hne] at ht
          simp [makeTimeParams, truthyEntry, hts]
    | some fs =>
        have hfs : fs = "" := by
          by_contra hne
          simp [strTruthy, hne] at hf
        cases t with
        | none => simp [makeTimeParams, truthyEntry, hfs]
        | some ts =>
            have hts : ts = "" := by
              by_contra hne
              simp [strTruthy, hne] at ht
            simp [makeTimeParams, truthyEntry, hfs, hts]

/-- Witness for C4: only-`from`, and both-bounds-empty, at concrete inputs. -/
theorem makeTimeParams_custom_witness :
    makeTimeParams .custom (some "2025-01-01") none = [("from", "2025-01-01")] ∧
    makeTimeParams .custom (some "") (some "") = [] :=
  ⟨(makeTimeParams_custom (some "2025-01-01") none).2.1 "2025-01-01" rfl
      (by decide) (by decide),
   (makeTimeParams_custom (some "") (some "")).2.2.2.2 (by decide) (by decide)⟩

/-! ## Session model

The `User` record is the `User` type of the `AuthProvider`
(src/src/components/Sidebar.tsx). `Store` is the slice of `localStorage` the
code touches: the `AuthProvider`'s keys `token` and `user`, and the API
client's key `admin_token` (src/unnamed/part_001). `AppState` adds the
provider's in-memory React state, the axios default `Authorization` header,
and the current browser location. -/

structure User where
  user_id : Int
  fname : String
  lname : String
  email : String
  role : String
deriving Repr, DecidableEq

structure Store where
  token : Option String
  user : Option User
  admin_token : Option String
deriving Repr, DecidableEq

structure AppState where
  memToken : Option String
  memUser : Option User
  store : Store
  authHeader : Option String
  location : String
deriving Repr, DecidableEq

/-- src/unnamed/part_001, `setAuthToken`:

```ts
export const setAuthToken = (token: string | null) => {
  if (token) {
    api.defaults.headers.common['Authorization'] = `Bearer ${token}`;
    localStorage.setItem('admin_token', token);
  } else {
    delete api.defaults.headers.common['Authorization'];
    localStorage.removeItem('admin_token');
  }
};
```

`if (token)` is JS truthiness, so the empty string takes the clearing
branch. -/
def setAuthToken (token : Option String) (s : AppState) : AppState :=
  match token with
  | some tk =>
      if tk = "" then
        { s with authHeader := none,
                 store := { s.store with admin_token := none } }
      else
        { s with authHeader := some ("Bearer " ++ tk),
                 store := { s.store with admin_token := some tk } }
  | none =>
      { s with authHeader := none,
               store := { s.store with admin_token := none } }

/-- The authentication endpoint's visible outcome at the `login` call site:
either `resp.data = {token, data}` arrived (both fields optional — the code
guards `if (!tkn || !data)`), or `api.post` threw and the `catch` branch runs
with the extracted message. -/
inductive LoginResp where
  | ok (token : Option String) (data : Option User)
  | err (msg : String)
deriving Repr, DecidableEq

/-- `login`'s return value `{ success: boolean; message?: string }`. -/
structure LoginResult where
  success : Bool
  message : Option String
deriving Repr, DecidableEq

def invalidRespMsg : String := "Invalid response from server"

/-- Message of the non-admin rejection branch ("this account is not an
administrator (admin)"); the spec's error taxonomy calls this branch
`Forbidden`. -/
def notAdminMsg : String := "บัญชีนี้ไม่ใช่ผู้ดูแลระบบ (admin)"

/-- src/src/components/Sidebar.tsx, `AuthProvider.login` (lines 76-97):

```ts
const { token: tkn, data } = resp.data;
if (!tkn || !data) return { success: false, message: 'Invalid response from server' };
if (data.role !== 'admin') return { success: false, message: '...' };
setToken(tkn); setUser(data);
localStorage.setItem('token', tkn);
localStorage.setItem('user', JSON.stringify(data));
setAuthToken(tkn);
return { success: true };
```

plus the `catch` branch returning the extracted message. The `useEffect`
that re-runs `setAuthToken(token)` after the state change repeats the same
assignment and is absorbed into the single step. -/
def login (resp : LoginResp) (s : AppState) : LoginResult × AppState :=
  match resp with
  | .err msg => ({ success := false, message := some msg }, s)
  | .ok none _ => ({ success := false, message := some invalidRespMsg }, s)
  | .ok (some _) none => ({ success := false, message := some invalidRespMsg }, s)
  | .ok (some tk) (some u) =>
      if tk = "" then
        ({ success := false, message := some invalidRespMsg }, s)
      else if u.role ≠ "admin" then
        ({ success := false, message := some notAdminMsg }, s)
      else
        ({ success := true, message := none },
         setAuthToken (some tk)
           { s with memToken := some tk, memUser := some u,
                    store := { s.store with token := some tk, user := some u } })

/-- src/src/components/Sidebar.tsx, `AuthProvider.logout` (lines 99-105):
clears the in-memory token/user, removes the `token` and `user` storage keys,
and calls `setAuthToken(null)`. -/
def logout (s : AppState) : AppState :=
  setAuthToken none
    { s with memToken := none, memUser := none,
             store := { s.store with token := none, user := none } }

/-- src/src/components/Sidebar.tsx, lines 66-70 and 72-74: the `useState`
initializers read the persisted `token` and `user` keys on mount (restore),
and the mount-time `useEffect` syncs the api header via
`setAuthToken(token)`. The stored user is `JSON.parse` of the
`JSON.stringify` written at login, which round-trips exactly for this record
type, so it is modelled typed. -/
def restore (st : Store) (loc : String) : AppState :=
  setAuthToken st.token
    { memToken := st.token, memUser := st.user, store := st,
      authHeader := none, location := loc }

/-- The error object handed to the response interceptor; only
`error.response?.status` is inspected (`none` models a request that got no
response). The interceptor returns the very same error object. -/
structure ApiError where
  status : Option Nat
deriving Repr, DecidableEq

/-- src/unnamed/part_001, lines 23-33, the response-error interceptor:

```ts
(error) => {
  if (error.response?.status === 401 || error.response?.status === 403) {
    localStorage.removeItem('admin_token');
    window.location.href = '/login';
  }
  return Promise.reject(error);
}
```

It removes only the `admin_token` key, assigns the location, and rejects
with the original error. -/
def interceptError (e : ApiError) (s : AppState) : ApiError × AppState :=
  if e.status = some 401 ∨ e.status = some 403 then
    (e, { s with store := { s.store with admin_token := none },
                 location := "/login" })
  else
    (e, s)

/-! ## Reachable session states -/

/-- The events that mutate the session (the spec's §5: `login`, `logout`,
the 401/403 interception) plus a page reload, which re-runs the restore
initializers on the current storage. -/
inductive Ev where
  | login (resp : LoginResp)
  | logout
  | authFail (e : ApiError)
  | reload
deriving Repr

def step (s : AppState) : Ev → AppState
  | .login r => (login r s).2
  | .logout => logout s
  | .authFail e => (interceptError e s).2
  | .reload => restore s.store s.location

def emptyStore : Store := { token := none, user := none, admin_token := none }

/-- First visit: empty storage, mounted at the login boundary. -/
def initState : AppState := restore emptyStore "/login"

inductive Reachable : AppState → Prop where
  | init : Reachable initState
  | next (s : AppState) (e : Ev) : Reachable s → Reachable (step s e)

/-- `strOk t`: if a token is present it is non-empty (login rejects falsy
tokens, so reachable states never hold an empty-string token). -/
def strOk : Option String → Prop
  | none => True
  | some t => t ≠ ""

/-- The session invariant: in memory and in the persisted `token`/`user`
keys, token and user are present together or absent together, and any
present token is non-empty. -/
def SessionInv (s : AppState) : Prop :=
  (s.memToken = none ↔ s.memUser = none) ∧
  (s.store.token = none ↔ s.store.user = none) ∧
  strOk s.memToken ∧ strOk s.store.token

theorem sessionInv_init : SessionInv initState := by
  simp [SessionInv, initState, restore, setAuthToken, emptyStore, strOk]

theorem sessionInv_step (s : AppState) (e : Ev) (h : SessionInv s) :
    SessionInv (step s e) := by
  obtain ⟨hmem, hst, hmo, hso⟩ := h
  cases e with
  | login r =>
      cases r with
      | err msg => simpa [step, login] using ⟨hmem, hst, hmo, hso⟩
      | ok tkn data =>
          cases tkn with
          | none => simpa [step, login] using ⟨hmem, hst, hmo, hso⟩
          | some tk =>
              cases data with
              | none => simpa [step, login] using ⟨hmem, hst, hmo, hso⟩
              | some u =>
                  by_cases htk : tk = ""
                  · simpa [step, login, htk] using ⟨hmem, hst, hmo, hso⟩
                  · by_cases hrole : u.role = "admin"
                    · simp [step, login, htk, hrole, setAuthToken,
                        SessionInv, strOk]
                    · simpa [step, login, htk, hrole] using
                        ⟨hmem, hst, hmo, hso⟩
  | logout =>
      simp [step, logout, setAuthToken, SessionInv, strOk]
  | authFail e =>
      by_cases hs : e.status = some 401 ∨ e.status = some 403
      · simpa [step, interceptError, hs, SessionInv] using
          ⟨hmem, hst, hmo, hso⟩
      · simpa [step, interceptError, hs] using ⟨hmem, hst, hmo, hso⟩
  | reload =>
      cases hco : s.store.token with
      | none =>
          simp [step, restore, setAuthToken, hco, SessionInv, strOk]
          exact hst.mp hco
      | some tk =>
          have htk : tk ≠ "" := by simpa [strOk, hco] using hso
          simp [step, restore, setAuthToken, hco, htk, SessionInv, strOk]
          exact fun hu => absurd hco (by simp [hst.mpr hu])

theorem sessionInv_reachable (s : AppState) (h : Reachable s) : SessionInv s := by
  induction h with
  | init => exact sessionInv_init
  | next s e _ ih => exact sessionInv_step s e ih

/-! ## Route guards -/

inductive GuardResult where
  | children
  | redirect (dest : String)
deriving Repr, DecidableEq

/-- src/src/components/ProtectedRoute.tsx:

```ts
const { token } = useAuth();
if (!token) { return <Navigate to="/login" replace ... />; }
return <>{children}</>;
```
-/
def protectedRoute (token : Option String) : GuardResult :=
  if strTruthy token = false then .redirect "/login" else .children

/-- src/unnamed/part_000 lines 24-37, the role-checking variant:

```ts
const { token, user } = useAuth();
if (!token || !user) { return <Navigate to="/login" replace />; }
if (user.role !== 'admin') { return <Navigate to="/login" replace />; }
return children;
```

The short-circuit `!token || !user` is modelled by the two redirect cases
(the evaluation order does not affect the result). -/
def protectedRouteStrict (token : Option String) (user : Option User) :
    GuardResult :=
  match user with
  | none => .redirect "/login"
  | some u =>
      if strTruthy token = false then .redirect "/login"
      else if u.role ≠ "admin" then .redirect "/login"
      else .children

/-! ## Theorems: session lifecycle -/

/-- **C2.** In every reachable session state, the token and the user are set
together or absent together — in memory and in the two persisted storage
keys (`token`, `user`). Reachability quantifies over all the mutating
operations (`login`, `logout`, restore-on-reload, and the API client's
401/403 interception), so every one of them preserves the invariant. -/
theorem session_token_user_together (s : AppState) (h : Reachable s) :
    (s.memToken = none ↔ s.memUser = none) ∧
    (s.store.token = none ↔ s.store.user = none) :=
  ⟨(sessionInv_reachable s h).1, (sessionInv_reachable s h).2.1⟩

/-- Witness for C2 at the initial state. -/
theorem session_token_user_together_witness :
    (initState.memToken = none ↔ initState.memUser = none) ∧
    (initState.store.token = none ↔ initState.store.user = none) :=
  session_token_user_together initState Reachable.init

/-- A session actor for concrete scenarios. -/
def adminUser : User :=
  { user_id := 1, fname := "Ann", lname := "Admin",
    email := "ann@example.com", role := "admin" }

def nonAdminUser : User :=
  { user_id := 2, fname := "Bea", lname := "Basic",
    email := "bea@example.com", role := "user" }

def err403 : ApiError := { status := some 403 }

/-- State right after a successful admin login from the initial state. -/
def sLoggedIn : AppState :=
  (login (.ok (some "tok0") (some adminUser)) initState).2

/-- **C1 counterexample.** The claim says a 401/403 response makes the
client "clear the Session Store (making it empty)". Starting from a
logged-in state and running the interceptor on an HTTP 403, the Session
Store is not empty: the in-memory token/user and the persisted
`token`/`user` keys all survive (only the separate `admin_token` key is
removed). -/
theorem interceptError_does_not_empty_session :
    ((interceptError err403 sLoggedIn).2.memToken = some "tok0" ∧
     (interceptError err403 sLoggedIn).2.memUser = some adminUser ∧
     (interceptError err403 sLoggedIn).2.store.token = some "tok0" ∧
     (interceptError err403 sLoggedIn).2.store.user = some adminUser) ∧
    (interceptError err403 sLoggedIn).2.store.admin_token = none ∧
    (interceptError err403 sLoggedIn).2.location = "/login" := by
  decide

/-- **C1 (amended).** On every response error whose status is 401 or 403,
the interceptor synchronously removes the API client's own persisted token
key (`admin_token`), navigates the client to the login boundary, and
propagates the original error to the caller unmodified; it leaves the
in-memory session and the `token`/`user` storage keys untouched, and it is
idempotent, so several calls failing simultaneously (run in sequence by the
single-threaded event loop) leave the same final state as a single
failure — rather than the side effect being guarded to run exactly once. -/
theorem interceptError_behavior (e : ApiError) (s : AppState)
    (h : e.status = some 401 ∨ e.status = some 403) :
    (interceptError e s).1 = e ∧
    (interceptError e s).2 =
      { s with store := { s.store with admin_token := none },
               location := "/login" } ∧
    (interceptError e (interceptError e s).2).2 = (interceptError e s).2 := by
  simp [interceptError, h]

/-- Witness for C1 (amended), at a concrete 403 on the logged-in state. -/
theorem interceptError_behavior_witness :
    (interceptError err403 sLoggedIn).1 = err403 ∧
    (interceptError err403 (interceptError err403 sLoggedIn).2).2 =
      (interceptError err403 sLoggedIn).2 :=
  ⟨(interceptError_behavior err403 sLoggedIn (Or.inr rfl)).1,
   (interceptError_behavior err403 sLoggedIn (Or.inr rfl)).2.2⟩

/-- **C5.** When the authentication endpoint accepts the credentials (a
truthy token and a principal arrive) but the principal's role is not
`admin`, `login` fails with the Forbidden rejection (`success = false` with
the non-admin message — the branch the spec's taxonomy names `Forbidden`)
and the state is completely unchanged: no session is established and
nothing is persisted. -/
theorem login_nonadmin_forbidden (tk : String) (u : User) (s : AppState)
    (htk : tk ≠ "") (hrole : u.role ≠ "admin") :
    login (.ok (some tk) (some u)) s
      = ({ success := false, message := some notAdminMsg }, s) := by
  simp [login, htk, hrole]

/-- Witness for C5: a non-admin principal against the initial (empty)
state — the session stays empty and no token is persisted. -/
theorem login_nonadmin_forbidden_witness :
    login (.ok (some "tok1") (some nonAdminUser)) initState
      = ({ success := false, message := some notAdminMsg }, initState) :=
  login_nonadmin_forbidden "tok1" nonAdminUser initState (by decide) (by decide)

/-- **C6.** Round-trip: after a successful login returning token `tk` and
principal `u`, restoring from the persisted storage (simulating a page
reload) yields exactly that token and that principal. -/
theorem login_restore_roundtrip (tk : String) (u : User) (s : AppState)
    (loc : String) (htk : tk ≠ "") (hrole : u.role = "admin") :
    (login (.ok (some tk) (some u)) s).1.success = true ∧
    (restore (login (.ok (some tk) (some u)) s).2.store loc).memToken
      = some tk ∧
    (restore (login (.ok (some tk) (some u)) s).2.store loc).memUser
      = some u := by
  simp [login, htk, hrole, setAuthToken, restore]

/-- Witness for C6 at a concrete admin login from the initial state. -/
theorem login_restore_roundtrip_witness :
    (login (.ok (some "tok0") (some adminUser)) initState).1.success = true ∧
    (restore (login (.ok (some "tok0") (some adminUser)) initState).2.store
        "/admin").memToken = some "tok0" ∧
    (restore (login (.ok (some "tok0") (some adminUser)) initState).2.store
        "/admin").memUser = some adminUser :=
  login_restore_roundtrip "tok0" adminUser initState "/admin"
    (by decide) (by decide)

/-- **C7.** `logout` is idempotent: from any state, calling it twice leaves
exactly the same state as calling it once, and a single call already leaves
the session empty (in memory and in all persisted keys). It is a total
function, so calling it when already logged out is safe. -/
theorem logout_idempotent (s : AppState) :
    logout (logout s) = logout s ∧
    (logout s).memToken = none ∧ (logout s).memUser = none ∧
    (logout s).store.token = none ∧ (logout s).store.user = none ∧
    (logout s).store.admin_token = none :=
  ⟨rfl, rfl, rfl, rfl, rfl, rfl⟩

/-! ## Theorems: route guards -/

/-- **C9.** In every reachable session state, the basic guard renders its
children iff a token is present, the strict variant renders its children iff
additionally the user exists and has role `admin`, and in every other state
both guards redirect to the same login boundary `/login`. -/
theorem routeGuard_renders_iff_session (s : AppState) (h : Reachable s) :
    (protectedRoute s.memToken = .children ↔ s.memToken ≠ none) ∧
    (protectedRoute s.memToken = .children ∨
      protectedRoute s.memToken = .redirect "/login") ∧
    (protectedRouteStrict s.memToken s.memUser = .children ↔
      (s.memToken ≠ none ∧ ∃ u, s.memUser = some u ∧ u.role = "admin")) ∧
    (protectedRouteStrict s.memToken s.memUser = .children ∨
      protectedRouteStrict s.memToken s.memUser = .redirect "/login") := by
  have hinv := sessionInv_reachable s h
  cases hmt : s.memToken with
  | none =>
      cases hmu : s.memUser with
      | none => simp [protectedRoute, protectedRouteStrict, strTruthy]
      | some u =>
          exact absurd (hinv.1.mp hmt) (by simp [hmu])
  | some tk =>
      have htk : tk ≠ "" := by
        have := hinv.2.2.1
        simpa [strOk, hmt] using this
      cases hmu : s.memUser with
      | none =>
          exact absurd (hinv.1.mpr hmu) (by simp [hmt])
      | some u =>
          by_cases hrole : u.role = "admin" <;>
            simp [protectedRoute, protectedRouteStrict, strTruthy, htk, hrole]

/-- Witness for C9 at the initial (logged-out) state: both guards redirect
to `/login`. -/
theorem routeGuard_renders_iff_session_witness :
    (protectedRoute initState.memToken = .children ↔
      initState.memToken ≠ none) ∧
    (protectedRoute initState.memToken = .children ∨
      protectedRoute initState.memToken = .redirect "/login") :=
  ⟨(routeGuard_renders_iff_session initState Reachable.init).1,
   (routeGuard_renders_iff_session initState Reachable.init).2.1⟩

/-! ## JavaScript values and envelope normalization

A small model of the JSON-ish values flowing through the response
normalizations, with JS truthiness, nullishness (`??`), optional chaining
(`?.`) and `Array.isArray` made explicit. -/

inductive JVal where
  | undefined
  | jnull
  | bool (b : Bool)
  | num (n : Int)
  | str (s : String)
  | arr (xs : List JVal)
  | obj (fs : List (String × JVal))

/-- JS truthiness: `undefined`, `null`, `false`, `0` and `""` are falsy;
every object and array (even empty) is truthy. -/
def truthy : JVal → Bool
  | .undefined => false
  | .jnull => false
  | .bool b => b
  | .num n => n ≠ 0
  | .str s => s ≠ ""
  | .arr _ => true
  | .obj _ => true

def nullish : JVal → Bool
  | .undefined => true
  | .jnull => true
  | _ => false

def lookupField : List (String × JVal) → String → Option JVal
  | [], _ => none
  | (k, v) :: rest, key => if k = key then some v else lookupField rest key

/-- Plain JS property read `v.k` in the non-throwing cases: objects yield
the field (or `undefined` when absent); primitives and arrays have no such
property here and yield `undefined`. -/
def getProp (v : JVal) (k : String) : JVal :=
  match v with
  | .obj fs => (lookupField fs k).getD .undefined
  | _ => .undefined

/-- Optional chaining `v?.k`: `undefined` on a nullish receiver, otherwise a
plain property read. -/
def optGet (v : JVal) (k : String) : JVal :=
  match v with
  | .undefined => .undefined
  | .jnull => .undefined
  | _ => getProp v k

/-- `a || b`. -/
def jOrElse (a b : JVal) : JVal := if truthy a then a else b

/-- `a ?? b`. -/
def jCoalesce (a b : JVal) : JVal := if nullish a then b else a

def isArray : JVal → Bool
  | .arr _ => true
  | _ => false

/-- src/unnamed/part_003 line 22 (`res.data` is the response body):

```ts
const payload: User[] = Array.isArray(res.data) ? res.data : res.data?.data || [];
```
-/
def dashboardPayload (body : JVal) : JVal :=
  if isArray body then body else jOrElse (optGet body "data") (.arr [])

/-- src/src/components/ActivityExplorer.tsx lines 164-167 (`res` is the
whole axios response, whose `data` field is the body):

```ts
const sumData = (sumRes as any).data?.data ?? (sumRes as any).data ?? (sumRes as any);
```
-/
def aeNormalize (res : JVal) : JVal :=
  jCoalesce (jCoalesce (optGet (getProp res "data") "data") (getProp res "data"))
    res

/-- A concrete axios response object carrying `body` in its `data` field. -/
def mkResp (body : JVal) : JVal :=
  .obj [("data", body), ("status", .num 200)]

/-! ## Dashboard user counters -/

/-- The `User` type of src/unnamed/part_003 (`status: number; // 0/1`). -/
structure DashUser where
  user_id : Int
  status : Int
deriving Repr, DecidableEq

structure Counters where
  totalUsers : Int
  activeUsers : Int
  blockedUsers : Int
deriving Repr, DecidableEq

/-- src/unnamed/part_003 lines 24-31:

```ts
const total = payload.length;
const active = payload.filter(u => Number(u.status) === 1).length;
const blocked = total - active;
setTotalUsers(total); setActiveUsers(active); setBlockedUsers(blocked);
```

`Number(u.status)` is the identity here because `status` is already typed
`number`. -/
def countersOf (payload : List DashUser) : Counters :=
  { totalUsers := (payload.length : Int)
  , activeUsers := ((payload.filter fun u => u.status == 1).length : Int)
  , blockedUsers := (payload.length : Int)
      - ((payload.filter fun u => u.status == 1).length : Int) }

/-- The `load` outcome: `some payload` on a normalized success, `none` when
the fetch threw (the `catch` branch sets all three counters to 0). -/
def loadCounters : Option (List DashUser) → Counters
  | some payload => countersOf payload
  | none => { totalUsers := 0, activeUsers := 0, blockedUsers := 0 }

/-! ## Theorems: envelope normalization -/

/-- **C8 counterexample.** The claim says every Report View normalization
degrades to the empty/default value on any unrecognized shape. For the
ActivityExplorer chain, a response whose body is JSON `null` (an
unrecognized shape) falls through `?? res` to the raw response object, so
the stored summary (`sumData || null`) is the response object rather than
the default `null`, and the stored activity list (`actData || []`) is the
response object rather than the default `[]`. -/
theorem aeNormalize_null_body_not_default :
    jOrElse (aeNormalize (mkResp .jnull)) .jnull = mkResp .jnull ∧
    mkResp .jnull ≠ JVal.jnull ∧
    jOrElse (aeNormalize (mkResp .jnull)) (.arr []) = mkResp .jnull ∧
    mkResp .jnull ≠ JVal.arr [] := by
  refine ⟨rfl, ?_, rfl, ?_⟩ <;> simp [mkResp]

/-- **C8 (amended).** Each normalization maps the three envelope shapes
`{data: T}`, `{data: T, meta: …}` and bare `T` to the identical internal
value — for the Dashboard chain for every array payload, and for the
ActivityExplorer chain for every payload that is not nullish and has no
(non-nullish) `data` field of its own. Unrecognized shapes never throw (the
functions are total); the Dashboard chain degrades them to the empty list
whenever the body's `data` member is falsy, and the ActivityExplorer chain
degrades non-nullish falsy bodies to the defaults but maps a JSON `null`
body to the raw response object instead. -/
theorem envelope_normalization_amended :
    (∀ xs meta,
      dashboardPayload (.arr xs) = .arr xs ∧
      dashboardPayload (.obj [("data", .arr xs)]) = .arr xs ∧
      dashboardPayload (.obj [("data", .arr xs), ("meta", meta)]) = .arr xs) ∧
    (∀ body, isArray body = false → truthy (optGet body "data") = false →
      dashboardPayload body = .arr []) ∧
    (∀ t meta, nullish t = false → nullish (optGet t "data") = true →
      aeNormalize (mkResp t) = t ∧
      aeNormalize (mkResp (.obj [("data", t)])) = t ∧
      aeNormalize (mkResp (.obj [("data", t), ("meta", meta)])) = t) ∧
    (∀ body, nullish body = false → truthy body = false →
      jOrElse (aeNormalize (mkResp body)) .jnull = .jnull ∧
      jOrElse (aeNormalize (mkResp body)) (.arr []) = .arr []) ∧
    aeNormalize (mkResp .jnull) = mkResp .jnull := by
  refine ⟨?_, ?_, ?_, ?_, rfl⟩
  · intro xs meta
    exact ⟨rfl, rfl, rfl⟩
  · intro body hbo hdata
    simp [dashboardPayload, hbo, jOrElse, hdata]
  · intro t meta hnn hnd
    have h1 : aeNormalize (mkResp t) = t := by
      cases t <;>
        simp_all [aeNormalize, mkResp, getProp, optGet, lookupField,
          jCoalesce, nullish]
    have h2 : aeNormalize (mkResp (.obj [("data", t)])) = t := by
      cases t <;>
        simp_all [aeNormalize, mkResp, getProp, optGet, lookupField,
          jCoalesce, nullish]
    have h3 : aeNormalize (mkResp (.obj [("data", t), ("meta", meta)])) = t := by
      cases t <;>
        simp_all [aeNormalize, mkResp, getProp, optGet, lookupField,
          jCoalesce, nullish]
    exact ⟨h1, h2, h3⟩
  · intro body hnn hft
    cases body <;>
      simp_all [aeNormalize, mkResp, getProp, optGet, lookupField,
        jCoalesce, jOrElse, nullish, truthy]

/-- Witness for C8 (amended): the `{total: 5}` payload of the spec's
scenario through all three shapes of the ActivityExplorer chain, and an
array payload through the wrapped shape of the Dashboard chain. -/
theorem envelope_normalization_amended_witness :
    aeNormalize (mkResp (.obj [("total", .num 5)])) = .obj [("total", .num 5)] ∧
    aeNormalize (mkResp (.obj [("data", .obj [("total", .num 5)])]))
      = .obj [("total", .num 5)] ∧
    aeNormalize (mkResp (.obj [("data", .obj [("total", .num 5)]),
        ("meta", .obj [("page", .num 1)])]))
      = .obj [("total", .num 5)] ∧
    dashboardPayload (.obj [("data", .arr [.num 1])]) = .arr [.num 1] := by
  have h := envelope_normalization_amended
  have h3 := h.2.2.1 (.obj [("total", .num 5)]) (.obj [("page", .num 1)])
    rfl rfl
  exact ⟨h3.1, h3.2.1, h3.2.2,
    (h.1 [.num 1] (.obj [("page", .num 1)])).2.1⟩

/-! ## Theorems: dashboard counters -/

/-- **C10.** For every normalized user list, the displayed counters satisfy
`totalUsers` = length of the list, `activeUsers` = number of entries whose
status equals 1, `blockedUsers = totalUsers - activeUsers`, hence
`activeUsers + blockedUsers = totalUsers` (with `blockedUsers ≥ 0`); and on
fetch failure all three counters are 0, preserving the same equation. -/
theorem dashboard_counters (payload : List DashUser) :
    (loadCounters (some payload)).totalUsers = (payload.length : Int) ∧
    (loadCounters (some payload)).activeUsers
      = ((payload.filter fun u => u.status == 1).length : Int) ∧
    (loadCounters (some payload)).blockedUsers
      = (loadCounters (some payload)).totalUsers
        - (loadCounters (some payload)).activeUsers ∧
    (loadCounters (some payload)).activeUsers
      + (loadCounters (some payload)).blockedUsers
      = (loadCounters (some payload)).totalUsers ∧
    0 ≤ (loadCounters (some payload)).blockedUsers ∧
    loadCounters none
      = { totalUsers := 0, activeUsers := 0, blockedUsers := 0 } := by
  refine ⟨rfl, rfl, rfl, by simp [loadCounters, countersOf], ?_, rfl⟩
  have hle := List.length_filter_le (fun u => u.status == 1) payload
  simp only [loadCounters, countersOf]
  omega

end AdminDashboard
